import Mathlib

/-
Verification of the interview orchestration core of the
AIinterview-and-resume-analyser repository.

The definitions below are a shallow embedding of the Python source,
primarily app.py (the authoritative route handlers), config.py and
models/physical_analyzer.py.  Python floats are modelled as exact
rationals; the Python builtin round (banker rounding to a number of
decimal digits) is modelled by pyRound.  The Flask session dict is
modelled by the SessionState structure, and the physical_analysis
dict (keyed by the string question_i) by a function from the natural
number i to an optional bucket.

External collaborators that are not part of the source tree
(models/question_generator.py, models/ai_interviewer.py and the
network analyzers called by models/physical_analyzer.py) are passed
to each operation as explicit arguments: an operation receives the
value such a collaborator returned for the call being modelled.
-/

namespace AIInterview

/- Configuration constants, copied from config.py. -/
namespace Config

/-- config.py line 30. -/
def ENABLE_PHYSICAL_ANALYSIS : Bool := true

/-- config.py line 32. -/
def CONFIDENCE_WEIGHT : ℚ := 4/10

/-- config.py line 33. -/
def VOICE_WEIGHT : ℚ := 35/100

/-- config.py line 34. -/
def BODY_LANGUAGE_WEIGHT : ℚ := 25/100

/-- config.py line 37. -/
def MIN_QUESTIONS : ℕ := 10

/-- config.py line 38. -/
def MAX_QUESTIONS : ℕ := 15

/-- config.py line 39. -/
def DEFAULT_QUESTIONS : ℕ := 12

end Config

/-- Floor of a rational, computed from its normalized fraction. -/
def ratFloor (q : ℚ) : ℤ := Int.fdiv q.num q.den

/-- Nearest integer with ties to even, the rounding rule of the Python
builtin round (floats are modelled as exact rationals). -/
def pyRoundHalfEven (q : ℚ) : ℤ :=
  let f := ratFloor q
  let r := q - (f : ℚ)
  if r < 1/2 then f
  else if 1/2 < r then f + 1
  else if f % 2 = 0 then f else f + 1

/-- Model of python round(q, ndigits). -/
def pyRound (ndigits : ℕ) (q : ℚ) : ℚ :=
  (pyRoundHalfEven (q * (10 : ℚ) ^ ndigits) : ℚ) / (10 : ℚ) ^ ndigits

/-- Arithmetic mean of a list of rationals (sum divided by length). -/
def listMean (l : List ℚ) : ℚ := l.sum / (l.length : ℚ)

/-- One interview question as stored in the session questions list:
a dict with keys question, type and difficulty (app.py lines 92 to 96). -/
structure Question where
  question : String
  type : String
  difficulty : String
deriving DecidableEq, Repr

/-- Result of PhysicalAnalyzer.analyze_video_frame for one frame
(physical_analyzer.py lines 60 to 64): the confidence and posture
sub-scores used by the ingestion endpoint. -/
structure FrameAnalysis where
  confidence : ℚ
  posture_score : ℚ
deriving DecidableEq, Repr

/-- Result of PhysicalAnalyzer.analyze_audio for one audio segment
(physical_analyzer.py lines 192 to 196): the voice sub-score used by
the ingestion endpoint. -/
structure AudioAnalysis where
  voice_score : ℚ
deriving DecidableEq, Repr

/-- The details sub-dict of a physical-analysis bucket
(app.py lines 655 to 661). -/
structure BucketDetails where
  confidence_scores : List ℚ
  voice_scores : List ℚ
  posture_scores : List ℚ
  frame_count : ℕ
  audio_segment_count : ℕ
deriving DecidableEq, Repr

/-- A per-question physical-analysis bucket
(app.py lines 650 to 662). -/
structure PhysicalBucket where
  confidence : ℚ
  voice_quality : ℚ
  body_language : ℚ
  overall_physical_score : ℚ
  details : BucketDetails
deriving DecidableEq, Repr

/-- A committed response, the dict appended to session responses
(app.py lines 457 to 464). -/
structure Response where
  question_index : ℕ
  question : String
  answer : String
  score : ℚ
  feedback : String
deriving DecidableEq, Repr

/-- The session-scoped interview state: the relevant keys of the Flask
session dict.  The physical_analysis dict keyed by the string
question_i is modelled as a function from i to an optional bucket. -/
structure SessionState where
  current_question : ℕ
  score : ℚ
  responses : List Response
  questions : List Question
  total_questions_target : ℕ
  physical_analysis : ℕ → Option PhysicalBucket

/-- The static fallback question used when the question generator
returns nothing (app.py lines 92 to 96). -/
def defaultQuestion : Question :=
  { question := "Tell me about yourself and your most relevant experience for this role."
    type := "behavioral"
    difficulty := "easy" }

/-- Target interview length, app.py line 85:
max(MIN_QUESTIONS, min(MAX_QUESTIONS, DEFAULT_QUESTIONS)). -/
def target_total : ℕ :=
  max Config.MIN_QUESTIONS (min Config.MAX_QUESTIONS Config.DEFAULT_QUESTIONS)

/-- Session initialization by the start_interview_with_name route
(app.py lines 47 to 106).  genResult is the list returned by
question_generator.generate_questions_raw for this call; when it is
empty the route substitutes the static default question. -/
def start_interview_with_name (genResult : List Question) : SessionState :=
  { current_question := 0
    score := 0
    responses := []
    questions := if genResult.isEmpty then [defaultQuestion] else genResult
    total_questions_target := target_total
    physical_analysis := fun _ => none }

/-- The freshly initialized bucket created by update_physical_analysis
on the first sample for a question (app.py lines 649 to 662). -/
def initBucket : PhysicalBucket :=
  { confidence := 0
    voice_quality := 0
    body_language := 0
    overall_physical_score := 0
    details :=
      { confidence_scores := []
        voice_scores := []
        posture_scores := []
        frame_count := 0
        audio_segment_count := 0 } }

/-- The update_physical_analysis route (app.py lines 629 to 721).
video_frame is none when the request carried no frame, some none when
a frame was sent but analyze_video_frame returned None, and
some (some fa) on a successful analysis; audio_segment likewise.
When neither input is present the route answers an error and leaves
the session unchanged; otherwise the bucket of the current question
is created if missing, the sample sub-scores are appended, the three
running means are recomputed (rounded to 2 decimals), and the overall
physical score is recomputed from the configured weights. -/
def update_physical_analysis (video_frame : Option (Option FrameAnalysis))
    (audio_segment : Option (Option AudioAnalysis)) (s : SessionState) : SessionState :=
  if video_frame = none ∧ audio_segment = none then s
  else
    let k := s.current_question
    let b0 := (s.physical_analysis k).getD initBucket
    let b1 :=
      match video_frame with
      | some (some fa) =>
          let d :=
            { b0.details with
              confidence_scores := b0.details.confidence_scores ++ [fa.confidence]
              posture_scores := b0.details.posture_scores ++ [fa.posture_score]
              frame_count := b0.details.frame_count + 1 }
          let conf :=
            if d.confidence_scores.isEmpty then b0.confidence
            else pyRound 2 (listMean d.confidence_scores)
          let body :=
            if d.posture_scores.isEmpty then b0.body_language
            else pyRound 2 (listMean d.posture_scores)
          { b0 with details := d, confidence := conf, body_language := body }
      | _ => b0
    let b2 :=
      match audio_segment with
      | some (some aa) =>
          let d :=
            { b1.details with
              voice_scores := b1.details.voice_scores ++ [aa.voice_score]
              audio_segment_count := b1.details.audio_segment_count + 1 }
          let vq :=
            if d.voice_scores.isEmpty then b1.voice_quality
            else pyRound 2 (listMean d.voice_scores)
          { b1 with details := d, voice_quality := vq }
      | _ => b1
    let b3 :=
      { b2 with
        overall_physical_score :=
          pyRound 2 (b2.confidence * Config.CONFIDENCE_WEIGHT +
            b2.voice_quality * Config.VOICE_WEIGHT +
            b2.body_language * Config.BODY_LANGUAGE_WEIGHT) }
    { s with physical_analysis := fun k2 => if k2 = k then some b3 else s.physical_analysis k2 }

/-- A push of one physical sample together with the index of the
question the client recorded the sample for.  The HTTP request of
update_physical_analysis carries no such tag: the route ignores it
and files the sample under the session current question, so the
argument recorded_for is ignored exactly as the source does. -/
def push_sample_for_question (_recorded_for : ℕ)
    (video_frame : Option (Option FrameAnalysis))
    (audio_segment : Option (Option AudioAnalysis)) (s : SessionState) : SessionState :=
  update_physical_analysis video_frame audio_segment s

/-- PhysicalAnalyzer.analyze_realtime_data aggregation
(physical_analyzer.py lines 264 to 314).  The per-sample network
analyses are abstracted: confs, voices and postures are the sub-score
lists collected from the successful analyses, while frame_count and
audio_count are the raw input counts.  A signal with no samples is
given the neutral mean 5.0. -/
def analyze_realtime_data (confs voices postures : List ℚ)
    (frame_count audio_count : ℕ) : PhysicalBucket :=
  let avg_confidence := if confs.isEmpty then 5 else listMean confs
  let avg_voice_score := if voices.isEmpty then 5 else listMean voices
  let avg_posture_score := if postures.isEmpty then 5 else listMean postures
  let overall_physical :=
    avg_confidence * (4/10) + avg_voice_score * (35/100) + avg_posture_score * (25/100)
  { confidence := pyRound 2 avg_confidence
    voice_quality := pyRound 2 avg_voice_score
    body_language := pyRound 2 avg_posture_score
    overall_physical_score := pyRound 2 overall_physical
    details :=
      { confidence_scores := confs
        voice_scores := voices
        posture_scores := postures
        frame_count := frame_count
        audio_segment_count := audio_count } }

/-- The batch analyze_physical route (app.py lines 588 to 627):
with no frames and no audio it answers an error and leaves the
session unchanged, otherwise it stores the batch result as the bucket
of the current question. -/
def analyze_physical (frame_count audio_count : ℕ)
    (confs voices postures : List ℚ) (s : SessionState) : SessionState :=
  if frame_count = 0 ∧ audio_count = 0 then s
  else
    let b := analyze_realtime_data confs voices postures frame_count audio_count
    { s with
      physical_analysis :=
        fun k => if k = s.current_question then some b else s.physical_analysis k }

/-- The four feedback bands of the submit_answer route. -/
inductive FeedbackTier where
  | excellent
  | good
  | okay
  | needsWork
deriving DecidableEq, Repr

/-- The cascading if of app.py lines 447 to 454, as a band lookup on
the merged score. -/
def feedbackTier (score : ℚ) : FeedbackTier :=
  if 8 ≤ score then .excellent
  else if 6 ≤ score then .good
  else if 4 ≤ score then .okay
  else .needsWork

/-- The feedback template of each band (app.py lines 447 to 454);
feedback is the upstream analyzer text spliced into the template. -/
def tierText (t : FeedbackTier) (feedback : String) : String :=
  match t with
  | .excellent => "Excellent! " ++ feedback ++ " That was a well-structured response."
  | .good => "Good job. " ++ feedback ++ " You\x27re on the right track."
  | .okay => "Okay. " ++ feedback ++ " Let\x27s work on improving this."
  | .needsWork => "I see. " ++ feedback ++ " We\x27ll practice more on this area."

/-- The ai_feedback string built by submit_answer from the merged
score and the upstream feedback text. -/
def ai_feedback_text (score : ℚ) (feedback : String) : String :=
  tierText (feedbackTier score) feedback

/-- The JSON payload of the submit_answer route (app.py lines 507 to
513), extended with the final average that the completing call writes
to the database (app.py lines 489 to 492): final_avg is some of the
computed average exactly when the call completed the interview, and
the database stores pyRound 1 of it. -/
structure SubmitResult where
  next_question : ℕ
  score : ℚ
  feedback : String
  completed : Bool
  final_avg : Option ℚ
deriving DecidableEq, Repr

/-- The merge step of submit_answer, factored from app.py lines 433
to 438: when a bucket exists for the answered question and physical
analysis is enabled the base score is merged 70/30 with the overall
physical score of the bucket and rounded to 1 decimal, else the base
score stands unchanged. -/
def mergedScore (base_score : ℚ) (physical_data : Option PhysicalBucket) : ℚ :=
  match physical_data with
  | some pd =>
      if Config.ENABLE_PHYSICAL_ANALYSIS then
        pyRound 1 (base_score * (7/10) + pd.overall_physical_score * (3/10))
      else base_score
  | none => base_score

/-- The response dict appended by submit_answer
(app.py lines 457 to 464). -/
def mkResponse (current_q : ℕ) (questions : List Question) (answer : String)
    (score : ℚ) (ai_feedback : String) : Response :=
  { question_index := current_q
    question := (questions.getD current_q defaultQuestion).question
    answer := answer
    score := score
    feedback := ai_feedback }

/-- The submit_answer route (app.py lines 397 to 513).  base_score
and base_feedback are the values returned by
ai_interviewer.analyze_answer for this call, answer is the submitted
text and next_q is the question generate_next_question would return
for the eager pre-generation step.  When the current index has
reached the length of the question list the route answers a completed
payload and leaves the session unchanged; otherwise it merges the
physical bucket of the current question into the score, appends the
response, deletes the bucket of the answered question, accumulates
the score, advances the index, and when not yet complete
pre-generates the next question if it is missing. -/
def submit_answer (base_score : ℚ) (base_feedback : String) (answer : String)
    (next_q : Question) (s : SessionState) : SubmitResult × SessionState :=
  let current_q := s.current_question
  if s.questions.length ≤ current_q then
    ({ next_question := current_q
       score := 0
       feedback := "Interview completed!"
       completed := true
       final_avg := none }, s)
  else
    let score := mergedScore base_score (s.physical_analysis current_q)
    let ai_feedback := ai_feedback_text score base_feedback
    let responses := s.responses ++ [mkResponse current_q s.questions answer score ai_feedback]
    let physical := fun k => if k = current_q then none else s.physical_analysis k
    let score_sum := s.score + score
    let current' := current_q + 1
    let final_avg :=
      if s.total_questions_target ≤ current' then
        some (if responses.isEmpty then 0 else score_sum / (responses.length : ℚ))
      else none
    let questions :=
      if ¬ s.total_questions_target ≤ current' ∧ s.questions.length ≤ current' then
        s.questions ++ [next_q]
      else s.questions
    ({ next_question := current'
       score := score
       feedback := ai_feedback
       completed := decide (s.total_questions_target ≤ current')
       final_avg := final_avg },
     { s with
       current_question := current'
       score := score_sum
       responses := responses
       questions := questions
       physical_analysis := physical })

/-- The JSON payload of the get_next_question route for an active
session (app.py lines 821 to 827). -/
structure NextQuestionPayload where
  question : String
  question_num : ℕ
  total_questions : ℕ
  type : String
deriving DecidableEq, Repr

/-- Result of the get_next_question route: the completed sentinel or
the payload of the current question. -/
inductive NextQuestionResult where
  | completed
  | payload (p : NextQuestionPayload)
deriving DecidableEq, Repr

/-- The get_next_question route (app.py lines 799 to 827).  gen is
the question generate_next_question would return for this call.  Past
the target the route answers the completed sentinel; otherwise it
generates the current question if it is missing (lazy, sequential)
and answers it. -/
def get_next_question (gen : Question) (s : SessionState) :
    NextQuestionResult × SessionState :=
  let current_q := s.current_question
  let target := s.total_questions_target
  if target ≤ current_q then (.completed, s)
  else
    let questions :=
      if s.questions.length ≤ current_q then s.questions ++ [gen] else s.questions
    let q := questions.getD current_q defaultQuestion
    (.payload
      { question := q.question
        question_num := current_q + 1
        total_questions := target
        type := q.type },
     { s with questions := questions })

/-- Result of the interview_room route: a redirect to the results
page or the rendered page of the current question. -/
inductive RoomResult where
  | toResults
  | page (q : Question) (question_num total_questions : ℕ)
deriving DecidableEq, Repr

/-- The interview_room route (app.py lines 322 to 394).  first_batch
is the list generate_questions_raw would return if the route has to
regenerate a missing question list, and next_q the question
generate_next_question would return for the lazy generation step.
With an empty question list the route regenerates it (falling back to
the static default question) and resets the index; past the target it
redirects to results; otherwise it generates the current question if
missing and renders it. -/
def interview_room (first_batch : List Question) (next_q : Question)
    (s : SessionState) : RoomResult × SessionState :=
  let s1 :=
    if s.questions.isEmpty then
      { s with
        questions := if first_batch.isEmpty then [defaultQuestion] else first_batch
        current_question := 0 }
    else s
  if s1.total_questions_target ≤ s1.current_question then (.toResults, s1)
  else
    let s2 :=
      if s1.questions.length ≤ s1.current_question then
        { s1 with questions := s1.questions ++ [next_q] }
      else s1
    (.page (s2.questions.getD s2.current_question defaultQuestion)
      (s2.current_question + 1) s2.total_questions_target, s2)

/-- One observable mutating operation on a session, each instantiated
with the values the external collaborators returned for that call. -/
inductive Step : SessionState → SessionState → Prop where
  | submit (s : SessionState) (base : ℚ) (fb ans : String) (nq : Question) :
      Step s (submit_answer base fb ans nq s).2
  | nextQ (s : SessionState) (g : Question) :
      Step s (get_next_question g s).2
  | room (s : SessionState) (fb : List Question) (nq : Question) :
      Step s (interview_room fb nq s).2
  | pushSample (s : SessionState) (vf : Option (Option FrameAnalysis))
      (af : Option (Option AudioAnalysis)) :
      Step s (update_physical_analysis vf af s)
  | batch (s : SessionState) (fc ac : ℕ) (cs vs ps : List ℚ) :
      Step s (analyze_physical fc ac cs vs ps s)

/-- States reachable from a start_interview_with_name initialization
through the mutating routes.  The bound on the generator output
length is the resolver contract of the specification (the generator
returns at most the requested count); question_generator.py is not
part of the source tree. -/
inductive Reachable : SessionState → Prop where
  | init (gen : List Question) (h : gen.length ≤ target_total) :
      Reachable (start_interview_with_name gen)
  | step (s s' : SessionState) (hs : Reachable s) (hstep : Step s s') :
      Reachable s'

/-- The session invariant maintained by every route. -/
def Inv (s : SessionState) : Prop :=
  s.responses.length = s.current_question ∧
  s.current_question ≤ s.total_questions_target ∧
  s.questions.length ≤ s.total_questions_target ∧
  s.questions ≠ [] ∧
  (∀ k, s.physical_analysis k ≠ none → k = s.current_question) ∧
  s.current_question ≤ s.questions.length

/-- The bucket of the current question: the dict entry
physical_analysis question_current, defaulting to the fresh bucket. -/
def bucketAt (s : SessionState) : PhysicalBucket :=
  (s.physical_analysis s.current_question).getD initBucket

/-
Concrete demonstration states used by witnesses and counterexamples.
-/

/-- A full batch of twelve generated questions. -/
def fullQuestions : List Question := List.replicate 12 defaultQuestion

/-- A freshly started session holding the full question batch. -/
def startDemo : SessionState := start_interview_with_name fullQuestions

/-- The merge scenario of the specification: one video frame with
confidence 8 and posture 5 and one audio segment with voice score 7,
pushed during question 0. -/
def mergeDemoState : SessionState :=
  update_physical_analysis (some (some ⟨8, 5⟩)) (some (some ⟨7⟩)) startDemo

/-- The bucket the merge scenario produces for question 0. -/
def mergeDemoBucket : PhysicalBucket :=
  { confidence := 8
    voice_quality := 7
    body_language := 5
    overall_physical_score := 69/10
    details :=
      { confidence_scores := [8]
        voice_scores := [7]
        posture_scores := [5]
        frame_count := 1
        audio_segment_count := 1 } }

/-- One submission with base score 6 and no physical data. -/
def submitOnce (s : SessionState) : SessionState :=
  (submit_answer 6 "f" "a" defaultQuestion s).2

/-- n submissions in a row. -/
def iterSubmit : ℕ → SessionState → SessionState
  | 0, s => s
  | n + 1, s => iterSubmit n (submitOnce s)

/-- The session after eleven of the twelve answers. -/
def almostDoneState : SessionState := iterSubmit 11 startDemo

/-- The completed session after all twelve answers. -/
def doneState : SessionState := iterSubmit 12 startDemo

/-- A frame sample pushed during question 0, before any submission. -/
def staleDemoDuringQ0 : SessionState :=
  update_physical_analysis (some (some ⟨8, 5⟩)) none startDemo

/-- The state right after question 0 is committed: the index has
advanced to 1 and the bucket of question 0 is deleted. -/
def staleDemoAfterSubmit : SessionState :=
  (submit_answer 6 "f" "a" defaultQuestion staleDemoDuringQ0).2

/-- A stale audio sample recorded for question 0 but pushed only
after the submission advanced the index to question 1. -/
def staleDemoResult : SessionState :=
  push_sample_for_question 0 none (some (some ⟨7⟩)) staleDemoAfterSubmit

/-- A session whose question list is empty, as handled by the
regeneration branch of interview_room. -/
def emptyQuestionsDemo : SessionState :=
  { current_question := 0
    score := 0
    responses := []
    questions := []
    total_questions_target := 12
    physical_analysis := fun _ => none }

/-
Helper lemmas describing the shape of each operation, shared by the
claim theorems below.
-/

/-- On a session whose index has reached the length of the question
list, submit_answer answers the completed payload and leaves the
session unchanged. -/
theorem submit_answer_guard (b : ℚ) (f a : String) (nq : Question) (s : SessionState)
    (h : s.questions.length ≤ s.current_question) :
    submit_answer b f a nq s =
      ({ next_question := s.current_question, score := 0,
         feedback := "Interview completed!", completed := true, final_avg := none }, s) := by
  simp [submit_answer, h]

/-- Session state after an active submission. -/
theorem submit_answer_active_snd (b : ℚ) (f a : String) (nq : Question) (s : SessionState)
    (h : s.current_question < s.questions.length) :
    (submit_answer b f a nq s).2 =
      { current_question := s.current_question + 1
        score := s.score + mergedScore b (s.physical_analysis s.current_question)
        responses := s.responses ++
          [mkResponse s.current_question s.questions a
            (mergedScore b (s.physical_analysis s.current_question))
            (ai_feedback_text (mergedScore b (s.physical_analysis s.current_question)) f)]
        questions :=
          if ¬ s.total_questions_target ≤ s.current_question + 1 ∧
              s.questions.length ≤ s.current_question + 1 then
            s.questions ++ [nq]
          else s.questions
        total_questions_target := s.total_questions_target
        physical_analysis :=
          fun k => if k = s.current_question then none else s.physical_analysis k } := by
  have h' : ¬ s.questions.length ≤ s.current_question := not_le.mpr h
  simp [submit_answer, h']

/-- Result payload of an active submission. -/
theorem submit_answer_active_fst (b : ℚ) (f a : String) (nq : Question) (s : SessionState)
    (h : s.current_question < s.questions.length) :
    (submit_answer b f a nq s).1 =
      { next_question := s.current_question + 1
        score := mergedScore b (s.physical_analysis s.current_question)
        feedback := ai_feedback_text (mergedScore b (s.physical_analysis s.current_question)) f
        completed := decide (s.total_questions_target ≤ s.current_question + 1)
        final_avg :=
          if s.total_questions_target ≤ s.current_question + 1 then
            some ((s.score + mergedScore b (s.physical_analysis s.current_question)) /
              ((s.responses.length + 1 : ℕ) : ℚ))
          else none } := by
  have h' : ¬ s.questions.length ≤ s.current_question := not_le.mpr h
  simp [submit_answer, h']

/-- Past the target, get_next_question answers the completed sentinel
and leaves the session unchanged. -/
theorem get_next_question_completed (g : Question) (s : SessionState)
    (h : s.total_questions_target ≤ s.current_question) :
    get_next_question g s = (.completed, s) := by
  simp [get_next_question, h]

/-- Session state after an active get_next_question. -/
theorem get_next_question_active_snd (g : Question) (s : SessionState)
    (h : s.current_question < s.total_questions_target) :
    (get_next_question g s).2 =
      { s with
        questions :=
          if s.questions.length ≤ s.current_question then s.questions ++ [g]
          else s.questions } := by
  have h' : ¬ s.total_questions_target ≤ s.current_question := not_le.mpr h
  simp [get_next_question, h']

/-- Result payload of an active get_next_question. -/
theorem get_next_question_active_fst (g : Question) (s : SessionState)
    (h : s.current_question < s.total_questions_target) :
    (get_next_question g s).1 =
      NextQuestionResult.payload
        { question := ((if s.questions.length ≤ s.current_question then s.questions ++ [g]
              else s.questions).getD s.current_question defaultQuestion).question
          question_num := s.current_question + 1
          total_questions := s.total_questions_target
          type := ((if s.questions.length ≤ s.current_question then s.questions ++ [g]
              else s.questions).getD s.current_question defaultQuestion).type } := by
  have h' : ¬ s.total_questions_target ≤ s.current_question := not_le.mpr h
  simp [get_next_question, h']

/-- update_physical_analysis touches only the physical_analysis dict. -/
theorem update_physical_analysis_fields (vf : Option (Option FrameAnalysis))
    (af : Option (Option AudioAnalysis)) (s : SessionState) :
    (update_physical_analysis vf af s).current_question = s.current_question ∧
    (update_physical_analysis vf af s).responses = s.responses ∧
    (update_physical_analysis vf af s).questions = s.questions ∧
    (update_physical_analysis vf af s).score = s.score ∧
    (update_physical_analysis vf af s).total_questions_target = s.total_questions_target := by
  unfold update_physical_analysis
  split <;> simp

/-- update_physical_analysis never writes a bucket keyed by an index
other than the current question. -/
theorem update_physical_analysis_other_key (vf : Option (Option FrameAnalysis))
    (af : Option (Option AudioAnalysis)) (s : SessionState) (k : ℕ)
    (hk : k ≠ s.current_question) :
    (update_physical_analysis vf af s).physical_analysis k = s.physical_analysis k := by
  unfold update_physical_analysis
  split
  · rfl
  · simp [hk]

/-- analyze_physical touches only the physical_analysis dict. -/
theorem analyze_physical_fields (fc ac : ℕ) (cs vs ps : List ℚ) (s : SessionState) :
    (analyze_physical fc ac cs vs ps s).current_question = s.current_question ∧
    (analyze_physical fc ac cs vs ps s).responses = s.responses ∧
    (analyze_physical fc ac cs vs ps s).questions = s.questions ∧
    (analyze_physical fc ac cs vs ps s).score = s.score ∧
    (analyze_physical fc ac cs vs ps s).total_questions_target = s.total_questions_target := by
  unfold analyze_physical
  split <;> simp

/-- analyze_physical never writes a bucket keyed by an index other
than the current question. -/
theorem analyze_physical_other_key (fc ac : ℕ) (cs vs ps : List ℚ) (s : SessionState) (k : ℕ)
    (hk : k ≠ s.current_question) :
    (analyze_physical fc ac cs vs ps s).physical_analysis k = s.physical_analysis k := by
  unfold analyze_physical
  split
  · rfl
  · simp [hk]

/-- With a non-empty question list, interview_room skips the
regeneration branch: past the target it redirects, otherwise it
behaves like the lazy generation of get_next_question. -/
theorem interview_room_no_regen (fb : List Question) (nq : Question) (s : SessionState)
    (h : s.questions ≠ []) :
    interview_room fb nq s =
      (if s.total_questions_target ≤ s.current_question then (RoomResult.toResults, s)
       else
        let questions :=
          if s.questions.length ≤ s.current_question then s.questions ++ [nq] else s.questions
        (RoomResult.page (questions.getD s.current_question defaultQuestion)
          (s.current_question + 1) s.total_questions_target,
         { s with questions := questions })) := by
  have h' : s.questions.isEmpty = false := by
    simpa [List.isEmpty_iff] using h
  by_cases hc : s.total_questions_target ≤ s.current_question
  · simp [interview_room, h', hc]
  · by_cases hq : s.questions.length ≤ s.current_question
    · simp [interview_room, h', hc, hq]
    · simp [interview_room, h', hc, hq]

/-
Invariant preservation.
-/

/-- Initialization establishes the invariant. -/
theorem inv_start (gen : List Question) (h : gen.length ≤ target_total) :
    Inv (start_interview_with_name gen) := by
  unfold Inv start_interview_with_name
  refine ⟨rfl, Nat.zero_le _, ?_, ?_, fun k hk => absurd rfl hk, Nat.zero_le _⟩
  · by_cases hg : gen.isEmpty
    · simp only [hg, if_pos]
      norm_num [target_total, Config.MIN_QUESTIONS, Config.MAX_QUESTIONS,
        Config.DEFAULT_QUESTIONS]
    · simpa [hg] using h
  · by_cases hg : gen.isEmpty <;> simp_all [List.isEmpty_iff]

/-- submit_answer preserves the invariant. -/
theorem inv_submit (b : ℚ) (f a : String) (nq : Question) (s : SessionState)
    (hInv : Inv s) : Inv (submit_answer b f a nq s).2 := by
  obtain ⟨h1, h2, h3, h4, h5, h6⟩ := hInv
  by_cases h : s.questions.length ≤ s.current_question
  · rw [submit_answer_guard b f a nq s h]
    exact ⟨h1, h2, h3, h4, h5, h6⟩
  · have hlt : s.current_question < s.questions.length := not_le.mp h
    rw [submit_answer_active_snd b f a nq s hlt]
    refine ⟨?_, ?_, ?_, ?_, ?_, ?_⟩ <;> dsimp only
    · simp [h1]
    · omega
    · split
      · next hcond =>
          obtain ⟨hc1, hc2⟩ := hcond
          simp only [List.length_append, List.length_cons, List.length_nil]
          omega
      · exact h3
    · split <;> simp_all
    · intro k hk
      by_cases hkc : k = s.current_question
      · simp [hkc] at hk
      · rw [if_neg hkc] at hk
        exact absurd (h5 k hk) hkc
    · split
      · next hcond =>
          simp only [List.length_append, List.length_cons, List.length_nil]
          omega
      · omega

/-- get_next_question preserves the invariant. -/
theorem inv_nextQ (g : Question) (s : SessionState) (hInv : Inv s) :
    Inv (get_next_question g s).2 := by
  obtain ⟨h1, h2, h3, h4, h5, h6⟩ := hInv
  by_cases h : s.total_questions_target ≤ s.current_question
  · rw [get_next_question_completed g s h]
    exact ⟨h1, h2, h3, h4, h5, h6⟩
  · have hlt : s.current_question < s.total_questions_target := not_le.mp h
    rw [get_next_question_active_snd g s hlt]
    refine ⟨h1, h2, ?_, ?_, h5, ?_⟩ <;> dsimp only
    · split
      · next hcond =>
          simp only [List.length_append, List.length_cons, List.length_nil]
          omega
      · exact h3
    · split <;> simp_all
    · split
      · next hcond =>
          simp only [List.length_append, List.length_cons, List.length_nil]
          omega
      · exact h6

/-- interview_room preserves the invariant. -/
theorem inv_room (fb : List Question) (nq : Question) (s : SessionState) (hInv : Inv s) :
    Inv (interview_room fb nq s).2 := by
  obtain ⟨h1, h2, h3, h4, h5, h6⟩ := hInv
  rw [interview_room_no_regen fb nq s h4]
  by_cases h : s.total_questions_target ≤ s.current_question
  · simp only [h, if_pos]
    exact ⟨h1, h2, h3, h4, h5, h6⟩
  · simp only [h, if_neg, not_false_iff]
    refine ⟨h1, h2, ?_, ?_, h5, ?_⟩ <;> dsimp only
    · split
      · next hcond =>
          simp only [List.length_append, List.length_cons, List.length_nil]
          omega
      · exact h3
    · split <;> simp_all
    · split
      · next hcond =>
          simp only [List.length_append, List.length_cons, List.length_nil]
          omega
      · exact h6

/-- update_physical_analysis preserves the invariant. -/
theorem inv_push (vf : Option (Option FrameAnalysis)) (af : Option (Option AudioAnalysis))
    (s : SessionState) (hInv : Inv s) : Inv (update_physical_analysis vf af s) := by
  obtain ⟨h1, h2, h3, h4, h5, h6⟩ := hInv
  obtain ⟨f1, f2, f3, f4, f5⟩ := update_physical_analysis_fields vf af s
  refine ⟨by rw [f2, f1]; exact h1, by rw [f1, f5]; exact h2,
    by rw [f3, f5]; exact h3, by rw [f3]; exact h4, ?_, by rw [f1, f3]; exact h6⟩
  intro k hk
  by_cases hkc : k = s.current_question
  · rw [hkc, f1]
  · rw [update_physical_analysis_other_key vf af s k hkc] at hk
    exact absurd (h5 k hk) hkc

/-- analyze_physical preserves the invariant. -/
theorem inv_batch (fc ac : ℕ) (cs vs ps : List ℚ) (s : SessionState) (hInv : Inv s) :
    Inv (analyze_physical fc ac cs vs ps s) := by
  obtain ⟨h1, h2, h3, h4, h5, h6⟩ := hInv
  obtain ⟨f1, f2, f3, f4, f5⟩ := analyze_physical_fields fc ac cs vs ps s
  refine ⟨by rw [f2, f1]; exact h1, by rw [f1, f5]; exact h2,
    by rw [f3, f5]; exact h3, by rw [f3]; exact h4, ?_, by rw [f1, f3]; exact h6⟩
  intro k hk
  by_cases hkc : k = s.current_question
  · rw [hkc, f1]
  · rw [analyze_physical_other_key fc ac cs vs ps s k hkc] at hk
    exact absurd (h5 k hk) hkc

/-- Every reachable session state satisfies the invariant. -/
theorem reachable_inv (s : SessionState) (h : Reachable s) : Inv s := by
  induction h with
  | init gen hlen => exact inv_start gen hlen
  | step s s' _ hstep ih =>
      cases hstep with
      | submit b fb ans nq => exact inv_submit b fb ans nq s ih
      | nextQ g => exact inv_nextQ g s ih
      | room fb nq => exact inv_room fb nq s ih
      | pushSample vf af => exact inv_push vf af s ih
      | batch fc ac cs vs ps => exact inv_batch fc ac cs vs ps s ih

/-- The start state of the demos is reachable. -/
theorem reachable_startDemo : Reachable startDemo := by
  have h : fullQuestions.length ≤ target_total := by
    simp [fullQuestions, target_total, Config.MIN_QUESTIONS, Config.MAX_QUESTIONS,
      Config.DEFAULT_QUESTIONS]
  exact Reachable.init fullQuestions h

/-- Chains of submissions preserve reachability. -/
theorem reachable_iterSubmit (n : ℕ) (s : SessionState) (h : Reachable s) :
    Reachable (iterSubmit n s) := by
  induction n generalizing s with
  | zero => exact h
  | succ n ih =>
      exact ih (submitOnce s) (Reachable.step s _ h (Step.submit s 6 "f" "a" defaultQuestion))

/-- The merge demo state is reachable. -/
theorem reachable_mergeDemoState : Reachable mergeDemoState :=
  Reachable.step startDemo _ reachable_startDemo
    (Step.pushSample startDemo (some (some ⟨8, 5⟩)) (some (some ⟨7⟩)))

/-
Claim theorems.
-/

/-- C1: on an active session, submit_answer stores
pyRound 1 (base * 0.7 + physical * 0.3) when a physical bucket exists
for the current question (physical analysis being enabled by the
configuration), and stores the base score unchanged when no bucket
exists; the stored response carries the same score.  Concretely, with
base score 6.0 and one sample per signal giving component means
confidence 8, voice 7 and posture 5 under the default weights, the
bucket overall is 6.9 and the stored merged score is
pyRound 1 (6.27) = 6.3. -/
theorem C1_merged_score_formula (s : SessionState) (b : ℚ) (f a : String) (nq : Question)
    (hact : s.current_question < s.questions.length) :
    ((∀ pd, s.physical_analysis s.current_question = some pd →
        (submit_answer b f a nq s).1.score =
          pyRound 1 (b * (7/10) + pd.overall_physical_score * (3/10))) ∧
      (s.physical_analysis s.current_question = none →
        (submit_answer b f a nq s).1.score = b) ∧
      (∃ r, (submit_answer b f a nq s).2.responses = s.responses ++ [r] ∧
        r.score = (submit_answer b f a nq s).1.score)) ∧
    (mergeDemoState.physical_analysis 0 = some mergeDemoBucket ∧
      mergeDemoBucket.overall_physical_score = 69/10 ∧
      (submit_answer 6 f a nq mergeDemoState).1.score = 63/10 ∧
      pyRound 1 (627/100) = 63/10) := by
  constructor
  · rw [submit_answer_active_fst b f a nq s hact, submit_answer_active_snd b f a nq s hact]
    refine ⟨?_, ?_, ?_⟩ <;> dsimp only
    · intro pd hpd
      rw [hpd]
      simp [mergedScore, Config.ENABLE_PHYSICAL_ANALYSIS]
    · intro hnone
      rw [hnone]
      simp [mergedScore]
    · exact ⟨_, rfl, rfl⟩
  · refine ⟨?_, by norm_num [mergeDemoBucket], ?_, ?_⟩
    · simp [mergeDemoState, startDemo, fullQuestions, start_interview_with_name,
        update_physical_analysis, initBucket, listMean, mergeDemoBucket,
        Config.CONFIDENCE_WEIGHT, Config.VOICE_WEIGHT, Config.BODY_LANGUAGE_WEIGHT]
      norm_num [pyRound, pyRoundHalfEven, ratFloor, Int.fdiv]
    · simp [submit_answer, mergedScore, mergeDemoState, startDemo, fullQuestions,
        start_interview_with_name, update_physical_analysis, initBucket, listMean,
        Config.ENABLE_PHYSICAL_ANALYSIS, Config.CONFIDENCE_WEIGHT, Config.VOICE_WEIGHT,
        Config.BODY_LANGUAGE_WEIGHT]
      norm_num [pyRound, pyRoundHalfEven, ratFloor, Int.fdiv]
    · norm_num [pyRound, pyRoundHalfEven, ratFloor, Int.fdiv]

/-- Witness for C1 at the merge scenario of the specification. -/
theorem C1_merged_score_formula_witness :
    mergeDemoState.current_question < mergeDemoState.questions.length ∧
    (submit_answer 6 "f" "a" defaultQuestion mergeDemoState).1.score =
      pyRound 1 (6 * (7/10) + mergeDemoBucket.overall_physical_score * (3/10)) := by
  have hact : mergeDemoState.current_question < mergeDemoState.questions.length := by
    simp [mergeDemoState, startDemo, fullQuestions, start_interview_with_name,
      update_physical_analysis]
  have hsome : mergeDemoState.physical_analysis mergeDemoState.current_question =
      some mergeDemoBucket := by
    simp [mergeDemoState, startDemo, fullQuestions, start_interview_with_name,
      update_physical_analysis, initBucket, listMean, mergeDemoBucket,
      Config.CONFIDENCE_WEIGHT, Config.VOICE_WEIGHT, Config.BODY_LANGUAGE_WEIGHT]
    norm_num [pyRound, pyRoundHalfEven, ratFloor, Int.fdiv]
  exact ⟨hact,
    (C1_merged_score_formula mergeDemoState 6 "f" "a" defaultQuestion hact).1.1
      mergeDemoBucket hsome⟩

/-- C2: in every reachable session state the number of stored
responses equals the current question index and the index never
exceeds the target; a successful submission appends exactly one
response and advances the index by exactly one, and no other route
changes either. -/
theorem C2_responses_match_index (s : SessionState) (hr : Reachable s) :
    (s.responses.length = s.current_question ∧
      s.current_question ≤ s.total_questions_target) ∧
    (∀ b f a nq, s.current_question < s.questions.length →
      (submit_answer b f a nq s).2.current_question = s.current_question + 1 ∧
      ∃ r, (submit_answer b f a nq s).2.responses = s.responses ++ [r]) ∧
    (∀ g, (get_next_question g s).2.current_question = s.current_question ∧
      (get_next_question g s).2.responses = s.responses) ∧
    (∀ fb nq, (interview_room fb nq s).2.current_question = s.current_question ∧
      (interview_room fb nq s).2.responses = s.responses) ∧
    (∀ vf af, (update_physical_analysis vf af s).current_question = s.current_question ∧
      (update_physical_analysis vf af s).responses = s.responses) ∧
    (∀ fc ac cs vs ps,
      (analyze_physical fc ac cs vs ps s).current_question = s.current_question ∧
      (analyze_physical fc ac cs vs ps s).responses = s.responses) := by
  obtain ⟨h1, h2, h3, h4, h5, h6⟩ := reachable_inv s hr
  refine ⟨⟨h1, h2⟩, ?_, ?_, ?_, ?_, ?_⟩
  · intro b f a nq hact
    rw [submit_answer_active_snd b f a nq s hact]
    exact ⟨rfl, _, rfl⟩
  · intro g
    by_cases h : s.total_questions_target ≤ s.current_question
    · rw [get_next_question_completed g s h]
      exact ⟨rfl, rfl⟩
    · rw [get_next_question_active_snd g s (not_le.mp h)]
      exact ⟨rfl, rfl⟩
  · intro fb nq
    rw [interview_room_no_regen fb nq s h4]
    by_cases h : s.total_questions_target ≤ s.current_question <;> simp [h]
  · intro vf af
    obtain ⟨f1, f2, _, _, _⟩ := update_physical_analysis_fields vf af s
    exact ⟨f1, f2⟩
  · intro fc ac cs vs ps
    obtain ⟨f1, f2, _, _, _⟩ := analyze_physical_fields fc ac cs vs ps s
    exact ⟨f1, f2⟩

/-- Witness for C2 at a freshly started session. -/
theorem C2_responses_match_index_witness :
    ((startDemo.responses.length = startDemo.current_question ∧
      startDemo.current_question ≤ startDemo.total_questions_target) ∧
    (∀ b f a nq, startDemo.current_question < startDemo.questions.length →
      (submit_answer b f a nq startDemo).2.current_question =
        startDemo.current_question + 1 ∧
      ∃ r, (submit_answer b f a nq startDemo).2.responses = startDemo.responses ++ [r]) ∧
    (∀ g, (get_next_question g startDemo).2.current_question = startDemo.current_question ∧
      (get_next_question g startDemo).2.responses = startDemo.responses) ∧
    (∀ fb nq, (interview_room fb nq startDemo).2.current_question =
        startDemo.current_question ∧
      (interview_room fb nq startDemo).2.responses = startDemo.responses) ∧
    (∀ vf af, (update_physical_analysis vf af startDemo).current_question =
        startDemo.current_question ∧
      (update_physical_analysis vf af startDemo).responses = startDemo.responses) ∧
    (∀ fc ac cs vs ps,
      (analyze_physical fc ac cs vs ps startDemo).current_question =
        startDemo.current_question ∧
      (analyze_physical fc ac cs vs ps startDemo).responses = startDemo.responses)) :=
  C2_responses_match_index startDemo reachable_startDemo

/-- C3 counterexample: the incremental endpoint carries no question
tag, so a sample recorded for question 0 but pushed after the
submission advanced the index is accumulated into the bucket of the
new current question 1, refuting that such a sample is rejected or
ignored and never accumulated into the bucket of the new current
question.  Before the stale push question 1 has no bucket; after it,
question 1 holds the stale voice score 7. -/
theorem C3_counterexample_stale_sample_accumulated :
    staleDemoAfterSubmit.current_question = 1 ∧
    staleDemoAfterSubmit.physical_analysis 1 = none ∧
    staleDemoResult.physical_analysis 1 =
      some { confidence := 0
             voice_quality := 7
             body_language := 0
             overall_physical_score := 49/20
             details :=
               { confidence_scores := []
                 voice_scores := [7]
                 posture_scores := []
                 frame_count := 0
                 audio_segment_count := 1 } } := by
  refine ⟨?_, ?_, ?_⟩
  · simp [staleDemoAfterSubmit, staleDemoDuringQ0, startDemo, fullQuestions,
      start_interview_with_name, update_physical_analysis, submit_answer, initBucket,
      listMean, mergedScore]
  · simp [staleDemoAfterSubmit, staleDemoDuringQ0, startDemo, fullQuestions,
      start_interview_with_name, update_physical_analysis, submit_answer, initBucket,
      listMean, mergedScore]
  · simp [staleDemoResult, staleDemoAfterSubmit, staleDemoDuringQ0, startDemo,
      fullQuestions, start_interview_with_name, push_sample_for_question,
      update_physical_analysis, submit_answer, initBucket, listMean, mergedScore,
      Config.CONFIDENCE_WEIGHT, Config.VOICE_WEIGHT, Config.BODY_LANGUAGE_WEIGHT]
    norm_num [pyRound, pyRoundHalfEven, ratFloor, Int.fdiv]

/-- C3 amended: a pushed sample is always filed under the session
current question at ingestion time, whatever question it was recorded
for, since the request carries no tag; in a reachable state no bucket
other than the current one exists; and an active submission deletes
the bucket of the question it commits, which is the only isolation
the code provides. -/
theorem C3_amended_bucket_keying (s : SessionState) (hr : Reachable s) (tag k : ℕ)
    (vf : Option (Option FrameAnalysis)) (af : Option (Option AudioAnalysis))
    (b : ℚ) (f a : String) (nq : Question)
    (hk : k ≠ s.current_question) (hact : s.current_question < s.questions.length) :
    (push_sample_for_question tag vf af s).physical_analysis k = s.physical_analysis k ∧
    s.physical_analysis k = none ∧
    (submit_answer b f a nq s).2.physical_analysis s.current_question = none := by
  obtain ⟨h1, h2, h3, h4, h5, h6⟩ := reachable_inv s hr
  refine ⟨update_physical_analysis_other_key vf af s k hk, ?_, ?_⟩
  · by_contra hne
    exact hk (h5 k hne)
  · rw [submit_answer_active_snd b f a nq s hact]
    simp

/-- Witness for the amended C3. -/
theorem C3_amended_bucket_keying_witness :
    (push_sample_for_question 0 none (some (some ⟨7⟩)) staleDemoDuringQ0).physical_analysis 5 =
      staleDemoDuringQ0.physical_analysis 5 ∧
    staleDemoDuringQ0.physical_analysis 5 = none ∧
    (submit_answer 6 "f" "a" defaultQuestion staleDemoDuringQ0).2.physical_analysis
      staleDemoDuringQ0.current_question = none := by
  have hr : Reachable staleDemoDuringQ0 :=
    Reachable.step startDemo _ reachable_startDemo
      (Step.pushSample startDemo (some (some ⟨8, 5⟩)) none)
  have hk : (5 : ℕ) ≠ staleDemoDuringQ0.current_question := by
    simp [staleDemoDuringQ0, startDemo, fullQuestions, start_interview_with_name,
      update_physical_analysis]
  have hact : staleDemoDuringQ0.current_question < staleDemoDuringQ0.questions.length := by
    simp [staleDemoDuringQ0, startDemo, fullQuestions, start_interview_with_name,
      update_physical_analysis]
  exact C3_amended_bucket_keying staleDemoDuringQ0 hr 0 5 none (some (some ⟨7⟩))
    6 "f" "a" defaultQuestion hk hact

/-- C4 counterexample: a submit_answer call on a completed session
also produces a result, with score 0 and the fixed text
Interview completed, which is not the needs-work band template for
score 0; an active submission with merged score 0 is answered with
the needs-work template, so two results with equal scores carry
different feedback texts, refuting the claim over every submitAnswer
result. -/
theorem C4_counterexample_completed_call_feedback :
    (submit_answer 0 "f" "a" defaultQuestion startDemo).1.score =
      (submit_answer 0 "f" "a" defaultQuestion doneState).1.score ∧
    (submit_answer 0 "f" "a" defaultQuestion startDemo).1.feedback ≠
      (submit_answer 0 "f" "a" defaultQuestion doneState).1.feedback ∧
    (submit_answer 0 "f" "a" defaultQuestion doneState).1.feedback ≠
      tierText (feedbackTier (submit_answer 0 "f" "a" defaultQuestion doneState).1.score)
        "f" := by
  have hdone : (submit_answer 0 "f" "a" defaultQuestion doneState).1 =
      { next_question := doneState.current_question, score := 0,
        feedback := "Interview completed!", completed := true, final_avg := none } := by
    set_option maxRecDepth 4000 in
    have hguard : doneState.questions.length ≤ doneState.current_question := by
      simp [doneState, iterSubmit, submitOnce, submit_answer, startDemo, fullQuestions,
        start_interview_with_name, mergedScore, target_total, Config.MIN_QUESTIONS,
        Config.MAX_QUESTIONS, Config.DEFAULT_QUESTIONS]
    rw [submit_answer_guard 0 "f" "a" defaultQuestion doneState hguard]
  have hstart : (submit_answer 0 "f" "a" defaultQuestion startDemo).1.score = 0 ∧
      (submit_answer 0 "f" "a" defaultQuestion startDemo).1.feedback =
        "I see. f We\x27ll practice more on this area." := by
    constructor <;>
      · simp [submit_answer, startDemo, fullQuestions, start_interview_with_name,
          mergedScore, ai_feedback_text, feedbackTier, tierText, target_total,
          Config.MIN_QUESTIONS, Config.MAX_QUESTIONS, Config.DEFAULT_QUESTIONS]
        try norm_num
  have htier : feedbackTier 0 = FeedbackTier.needsWork := by
    norm_num [feedbackTier]
  refine ⟨?_, ?_, ?_⟩
  · rw [hdone, hstart.1]
  · rw [hdone, hstart.2]
    decide
  · rw [hdone]
    show ("Interview completed!" : String) ≠ tierText (feedbackTier 0) "f"
    rw [htier]
    decide

/-- C4 amended: for every submit_answer call on an active session the
feedback text is the fixed band template selected by the merged score
alone, with bands at 8, 6 and 4; and equal merged scores always
select equal bands. -/
theorem C4_feedback_bands (s : SessionState) (b : ℚ) (f a : String) (nq : Question)
    (hact : s.current_question < s.questions.length) :
    ((submit_answer b f a nq s).1.feedback =
      tierText (feedbackTier (submit_answer b f a nq s).1.score) f) ∧
    (∀ x : ℚ, (8 ≤ x → feedbackTier x = .excellent) ∧
      (6 ≤ x → x < 8 → feedbackTier x = .good) ∧
      (4 ≤ x → x < 6 → feedbackTier x = .okay) ∧
      (x < 4 → feedbackTier x = .needsWork)) ∧
    (∀ s2 b2 f2 a2 nq2,
      (submit_answer b f a nq s).1.score = (submit_answer b2 f2 a2 nq2 s2).1.score →
      feedbackTier (submit_answer b f a nq s).1.score =
        feedbackTier (submit_answer b2 f2 a2 nq2 s2).1.score) := by
  refine ⟨?_, ?_, ?_⟩
  · rw [submit_answer_active_fst b f a nq s hact]
    rfl
  · intro x
    refine ⟨?_, ?_, ?_, ?_⟩
    · intro h8
      simp [feedbackTier, h8]
    · intro h6 h8
      simp [feedbackTier, not_le.mpr h8, h6]
    · intro h4 h6
      simp [feedbackTier, not_le.mpr h6,
        not_le.mpr (lt_trans h6 (by norm_num : (6:ℚ) < 8)), h4]
    · intro h4
      simp [feedbackTier, not_le.mpr h4,
        not_le.mpr (lt_trans h4 (by norm_num : (4:ℚ) < 6)),
        not_le.mpr (lt_trans h4 (by norm_num : (4:ℚ) < 8))]
  · intro s2 b2 f2 a2 nq2 hscore
    rw [hscore]

/-- Witness for the amended C4. -/
theorem C4_feedback_bands_witness :
    startDemo.current_question < startDemo.questions.length ∧
    (submit_answer 6 "f" "a" defaultQuestion startDemo).1.feedback =
      tierText (feedbackTier (submit_answer 6 "f" "a" defaultQuestion startDemo).1.score)
        "f" := by
  have hact : startDemo.current_question < startDemo.questions.length := by
    simp [startDemo, fullQuestions, start_interview_with_name]
  exact ⟨hact, (C4_feedback_bands startDemo 6 "f" "a" defaultQuestion hact).1⟩

/-- C5: each successfully analyzed sample ingested by
update_physical_analysis is appended to the running per-signal lists
of the bucket of the current question, the touched per-signal values
are recomputed as the arithmetic means of all scores received so far
rounded to 2 decimals, and the overall physical score is recomputed
on every call as the fixed-weight composite of the three per-signal
values rounded to 2 decimals, the configured weights summing to 1. -/
theorem C5_running_means_and_composite (s : SessionState)
    (vf : Option (Option FrameAnalysis)) (af : Option (Option AudioAnalysis))
    (hdata : ¬(vf = none ∧ af = none)) :
    (∀ fa, vf = some (some fa) →
      (bucketAt (update_physical_analysis vf af s)).details.confidence_scores =
        (bucketAt s).details.confidence_scores ++ [fa.confidence] ∧
      (bucketAt (update_physical_analysis vf af s)).details.posture_scores =
        (bucketAt s).details.posture_scores ++ [fa.posture_score] ∧
      (bucketAt (update_physical_analysis vf af s)).confidence =
        pyRound 2 (listMean
          (bucketAt (update_physical_analysis vf af s)).details.confidence_scores) ∧
      (bucketAt (update_physical_analysis vf af s)).body_language =
        pyRound 2 (listMean
          (bucketAt (update_physical_analysis vf af s)).details.posture_scores)) ∧
    (∀ aa, af = some (some aa) →
      (bucketAt (update_physical_analysis vf af s)).details.voice_scores =
        (bucketAt s).details.voice_scores ++ [aa.voice_score] ∧
      (bucketAt (update_physical_analysis vf af s)).voice_quality =
        pyRound 2 (listMean
          (bucketAt (update_physical_analysis vf af s)).details.voice_scores)) ∧
    ((bucketAt (update_physical_analysis vf af s)).overall_physical_score =
      pyRound 2 ((bucketAt (update_physical_analysis vf af s)).confidence *
          Config.CONFIDENCE_WEIGHT +
        (bucketAt (update_physical_analysis vf af s)).voice_quality * Config.VOICE_WEIGHT +
        (bucketAt (update_physical_analysis vf af s)).body_language *
          Config.BODY_LANGUAGE_WEIGHT)) ∧
    Config.CONFIDENCE_WEIGHT + Config.VOICE_WEIGHT + Config.BODY_LANGUAGE_WEIGHT = 1 := by
  refine ⟨?_, ?_, ?_, ?_⟩
  · intro fa hfa
    subst hfa
    rcases af with _ | af1
    · simp [update_physical_analysis, bucketAt]
    · rcases af1 with _ | aa <;> simp [update_physical_analysis, bucketAt]
  · intro aa haa
    subst haa
    rcases vf with _ | vf1
    · simp [update_physical_analysis, bucketAt]
    · rcases vf1 with _ | fa <;> simp [update_physical_analysis, bucketAt]
  · rcases vf with _ | vf1
    · rcases af with _ | af1
      · exact absurd ⟨rfl, rfl⟩ hdata
      · rcases af1 with _ | aa <;> simp [update_physical_analysis, bucketAt]
    · rcases af with _ | af1
      · rcases vf1 with _ | fa <;> simp [update_physical_analysis, bucketAt]
      · rcases vf1 with _ | fa <;> rcases af1 with _ | aa <;>
          simp [update_physical_analysis, bucketAt]
  · norm_num [Config.CONFIDENCE_WEIGHT, Config.VOICE_WEIGHT, Config.BODY_LANGUAGE_WEIGHT]

/-- Witness for C5 at one frame and one audio sample pushed on a
fresh session. -/
theorem C5_running_means_and_composite_witness :
    ((bucketAt mergeDemoState).details.confidence_scores =
      (bucketAt startDemo).details.confidence_scores ++ [(8 : ℚ)] ∧
    (bucketAt mergeDemoState).details.posture_scores =
      (bucketAt startDemo).details.posture_scores ++ [(5 : ℚ)] ∧
    (bucketAt mergeDemoState).confidence =
      pyRound 2 (listMean (bucketAt mergeDemoState).details.confidence_scores) ∧
    (bucketAt mergeDemoState).body_language =
      pyRound 2 (listMean (bucketAt mergeDemoState).details.posture_scores)) ∧
    ((bucketAt mergeDemoState).overall_physical_score =
      pyRound 2 ((bucketAt mergeDemoState).confidence * Config.CONFIDENCE_WEIGHT +
        (bucketAt mergeDemoState).voice_quality * Config.VOICE_WEIGHT +
        (bucketAt mergeDemoState).body_language * Config.BODY_LANGUAGE_WEIGHT)) := by
  have h := C5_running_means_and_composite startDemo
    (some (some ⟨8, 5⟩)) (some (some ⟨7⟩)) (by simp)
  exact ⟨h.1 ⟨8, 5⟩ rfl, h.2.2.1⟩

/-- C6: when the question generator returns no questions, the
start_interview_with_name route still installs a non-empty question
list built from the static default question within the same call;
get_next_question on an active session always answers a question
payload, never an error, whatever single question the generator
produced; and interview_room rebuilds an empty question list from the
static default question. -/
theorem C6_static_fallback (gen : List Question) (g nq : Question) (s t : SessionState)
    (hact : s.current_question < s.total_questions_target)
    (ht : t.questions = []) :
    ((start_interview_with_name gen).questions ≠ [] ∧
      (start_interview_with_name []).questions = [defaultQuestion]) ∧
    ((∃ p, (get_next_question g s).1 = NextQuestionResult.payload p) ∧
      (get_next_question g s).2.questions ≠ []) ∧
    (interview_room [] nq t).2.questions = [defaultQuestion] := by
  refine ⟨⟨?_, rfl⟩, ⟨?_, ?_⟩, ?_⟩
  · by_cases hg : gen.isEmpty <;> simp_all [start_interview_with_name, List.isEmpty_iff]
  · exact ⟨_, get_next_question_active_fst g s hact⟩
  · rw [get_next_question_active_snd g s hact]
    split
    · simp
    · next hq =>
        have : 0 < s.questions.length := by omega
        exact List.ne_nil_of_length_pos this
  · by_cases h0 : t.total_questions_target = 0 <;> simp [interview_room, ht, h0]

/-- Witness for C6. -/
theorem C6_static_fallback_witness :
    ((start_interview_with_name []).questions ≠ [] ∧
      (start_interview_with_name []).questions = [defaultQuestion]) ∧
    ((∃ p, (get_next_question defaultQuestion startDemo).1 =
        NextQuestionResult.payload p) ∧
      (get_next_question defaultQuestion startDemo).2.questions ≠ []) ∧
    (interview_room [] defaultQuestion emptyQuestionsDemo).2.questions =
      [defaultQuestion] := by
  have hact : startDemo.current_question < startDemo.total_questions_target := by
    simp [startDemo, fullQuestions, start_interview_with_name, target_total,
      Config.MIN_QUESTIONS, Config.MAX_QUESTIONS, Config.DEFAULT_QUESTIONS]
  exact C6_static_fallback [] defaultQuestion defaultQuestion startDemo
    emptyQuestionsDemo hact rfl

/-- C7: a submit_answer call on a reachable session that is already
completed is a no-op on session state and answers a payload that
surfaces the completed condition with score 0 instead of scoring the
answer. -/
theorem C7_completed_submit_noop (s : SessionState) (hr : Reachable s)
    (b : ℚ) (f a : String) (nq : Question)
    (hc : s.total_questions_target ≤ s.current_question) :
    (submit_answer b f a nq s).2 = s ∧
    (submit_answer b f a nq s).1.completed = true ∧
    (submit_answer b f a nq s).1.score = 0 ∧
    (submit_answer b f a nq s).1.feedback = "Interview completed!" := by
  obtain ⟨h1, h2, h3, h4, h5, h6⟩ := reachable_inv s hr
  have hguard : s.questions.length ≤ s.current_question := le_trans h3 hc
  rw [submit_answer_guard b f a nq s hguard]
  exact ⟨rfl, rfl, rfl, rfl⟩

/-- Witness for C7 after the twelve answers of a full interview. -/
theorem C7_completed_submit_noop_witness :
    doneState.total_questions_target ≤ doneState.current_question ∧
    (submit_answer 5 "f" "a" defaultQuestion doneState).2 = doneState ∧
    (submit_answer 5 "f" "a" defaultQuestion doneState).1.completed = true := by
  have hr : Reachable doneState := reachable_iterSubmit 12 startDemo reachable_startDemo
  have hc : doneState.total_questions_target ≤ doneState.current_question := by
    set_option maxRecDepth 4000 in
    simp [doneState, iterSubmit, submitOnce, submit_answer, startDemo, fullQuestions,
      start_interview_with_name, mergedScore, target_total, Config.MIN_QUESTIONS,
      Config.MAX_QUESTIONS, Config.DEFAULT_QUESTIONS]
  have h := C7_completed_submit_noop doneState hr 5 "f" "a" defaultQuestion hc
  exact ⟨hc, h.1, h.2.1⟩

/-- C8: two get_next_question calls in a row on a reachable session,
with no submission in between and whatever questions the generator
returns, produce the same result both times, leave the second state
equal to the first, and append at most one question in total. -/
theorem C8_get_next_question_idempotent (g1 g2 : Question) (s : SessionState)
    (hr : Reachable s) :
    (get_next_question g2 (get_next_question g1 s).2).1 = (get_next_question g1 s).1 ∧
    (get_next_question g2 (get_next_question g1 s).2).2 = (get_next_question g1 s).2 ∧
    ((get_next_question g1 s).2.questions = s.questions ∨
      (get_next_question g1 s).2.questions = s.questions ++ [g1]) := by
  obtain ⟨h1, h2, h3, h4, h5, h6⟩ := reachable_inv s hr
  by_cases h : s.total_questions_target ≤ s.current_question
  · rw [get_next_question_completed g1 s h]
    dsimp only
    rw [get_next_question_completed g2 s h]
    exact ⟨rfl, rfl, Or.inl rfl⟩
  · have hlt : s.current_question < s.total_questions_target := not_le.mp h
    by_cases hq : s.questions.length ≤ s.current_question
    · have e2 : (get_next_question g1 s).2 =
          { s with questions := s.questions ++ [g1] } := by
        rw [get_next_question_active_snd g1 s hlt, if_pos hq]
      have e1 : (get_next_question g1 s).1 = NextQuestionResult.payload
          { question := ((s.questions ++ [g1]).getD s.current_question
              defaultQuestion).question
            question_num := s.current_question + 1
            total_questions := s.total_questions_target
            type := ((s.questions ++ [g1]).getD s.current_question
              defaultQuestion).type } := by
        rw [get_next_question_active_fst g1 s hlt, if_pos hq]
      have hq2 : ¬ ({ s with questions := s.questions ++ [g1] } :
          SessionState).questions.length ≤
          ({ s with questions := s.questions ++ [g1] } :
            SessionState).current_question := by
        simp only [List.length_append, List.length_cons, List.length_nil]
        omega
      have hlt2 : ({ s with questions := s.questions ++ [g1] } :
          SessionState).current_question <
          ({ s with questions := s.questions ++ [g1] } :
            SessionState).total_questions_target := hlt
      refine ⟨?_, ?_, Or.inr ?_⟩
      · rw [e2, e1, get_next_question_active_fst g2 _ hlt2, if_neg hq2]
      · rw [e2, get_next_question_active_snd g2 _ hlt2, if_neg hq2]
      · rw [e2]
    · have e2 : (get_next_question g1 s).2 = s := by
        rw [get_next_question_active_snd g1 s hlt, if_neg hq]
      refine ⟨?_, ?_, Or.inl ?_⟩
      · rw [e2, get_next_question_active_fst g2 s hlt,
          get_next_question_active_fst g1 s hlt]
        simp only [if_neg hq]
      · rw [e2, get_next_question_active_snd g2 s hlt, if_neg hq]
      · rw [e2]

/-- Witness for C8, with two different generator outputs. -/
theorem C8_get_next_question_idempotent_witness :
    (get_next_question ⟨"other question", "technical", "hard"⟩
        (get_next_question defaultQuestion startDemo).2).1 =
      (get_next_question defaultQuestion startDemo).1 ∧
    (get_next_question ⟨"other question", "technical", "hard"⟩
        (get_next_question defaultQuestion startDemo).2).2 =
      (get_next_question defaultQuestion startDemo).2 ∧
    ((get_next_question defaultQuestion startDemo).2.questions = startDemo.questions ∨
      (get_next_question defaultQuestion startDemo).2.questions =
        startDemo.questions ++ [defaultQuestion]) :=
  C8_get_next_question_idempotent defaultQuestion ⟨"other question", "technical", "hard"⟩
    startDemo reachable_startDemo

/-- C9: when a submission on a reachable active session completes the
interview, the computed final average equals the accumulated score
sum divided by the number of responses, which equals the target
length, and get_next_question then reports the completed sentinel. -/
theorem C9_final_average (s : SessionState) (hr : Reachable s) (b : ℚ) (f a : String)
    (nq : Question) (hact : s.current_question < s.questions.length)
    (hcomp : (submit_answer b f a nq s).1.completed = true) :
    (submit_answer b f a nq s).1.final_avg =
      some ((submit_answer b f a nq s).2.score / (s.total_questions_target : ℚ)) ∧
    (submit_answer b f a nq s).2.responses.length = s.total_questions_target ∧
    (submit_answer b f a nq s).2.current_question = s.total_questions_target ∧
    (∀ g, (get_next_question g (submit_answer b f a nq s).2).1 =
      NextQuestionResult.completed) := by
  obtain ⟨h1, h2, h3, h4, h5, h6⟩ := reachable_inv s hr
  rw [submit_answer_active_fst b f a nq s hact] at hcomp
  dsimp only at hcomp
  have htle : s.total_questions_target ≤ s.current_question + 1 :=
    of_decide_eq_true hcomp
  have heq : s.total_questions_target = s.current_question + 1 := by omega
  refine ⟨?_, ?_, ?_, ?_⟩
  · rw [submit_answer_active_fst b f a nq s hact, submit_answer_active_snd b f a nq s hact]
    dsimp only
    rw [if_pos htle, h1, heq]
  · rw [submit_answer_active_snd b f a nq s hact]
    dsimp only
    simp only [List.length_append, List.length_cons, List.length_nil]
    omega
  · rw [submit_answer_active_snd b f a nq s hact]
    dsimp only
    omega
  · intro g
    rw [submit_answer_active_snd b f a nq s hact]
    rw [get_next_question_completed g _ (by dsimp only; exact htle)]

/-- Witness for C9 at the twelfth and last answer of a full
interview. -/
theorem C9_final_average_witness :
    almostDoneState.current_question < almostDoneState.questions.length ∧
    (submit_answer 6 "f" "a" defaultQuestion almostDoneState).1.completed = true ∧
    (submit_answer 6 "f" "a" defaultQuestion almostDoneState).2.responses.length =
      almostDoneState.total_questions_target := by
  have hr : Reachable almostDoneState :=
    reachable_iterSubmit 11 startDemo reachable_startDemo
  have hact : almostDoneState.current_question < almostDoneState.questions.length := by
    set_option maxRecDepth 4000 in
    simp [almostDoneState, iterSubmit, submitOnce, submit_answer, startDemo, fullQuestions,
      start_interview_with_name, mergedScore, target_total, Config.MIN_QUESTIONS,
      Config.MAX_QUESTIONS, Config.DEFAULT_QUESTIONS]
  have hcomp : (submit_answer 6 "f" "a" defaultQuestion almostDoneState).1.completed =
      true := by
    set_option maxRecDepth 4000 in
    simp [almostDoneState, iterSubmit, submitOnce, submit_answer, startDemo, fullQuestions,
      start_interview_with_name, mergedScore, target_total, Config.MIN_QUESTIONS,
      Config.MAX_QUESTIONS, Config.DEFAULT_QUESTIONS]
  exact ⟨hact, hcomp,
    (C9_final_average almostDoneState hr 6 "f" "a" defaultQuestion hact hcomp).2.1⟩

/-- C10: a bucket created by the incremental endpoint starts with all
three signals at 0; after an audio-only history the confidence and
body-language signals stay 0 and the composite reduces to the voice
term voice_quality * 0.35 (rounded to 2 decimals), the absent signals
contributing 0; whereas the batch analyzer substitutes the neutral
score 5.0 for every signal with no samples. -/
theorem C10_zero_init_and_batch_neutral (s : SessionState) (aa : AudioAnalysis)
    (cs vs ps : List ℚ) (fc ac : ℕ)
    (h0 : (bucketAt s).confidence = 0 ∧ (bucketAt s).body_language = 0) :
    (initBucket.confidence = 0 ∧ initBucket.voice_quality = 0 ∧
      initBucket.body_language = 0) ∧
    ((bucketAt (update_physical_analysis none (some (some aa)) s)).confidence = 0 ∧
      (bucketAt (update_physical_analysis none (some (some aa)) s)).body_language = 0 ∧
      (bucketAt (update_physical_analysis none (some (some aa)) s)).overall_physical_score =
        pyRound 2
          ((bucketAt (update_physical_analysis none (some (some aa)) s)).voice_quality *
            Config.VOICE_WEIGHT)) ∧
    ((cs = [] → (analyze_realtime_data cs vs ps fc ac).confidence = 5) ∧
      (vs = [] → (analyze_realtime_data cs vs ps fc ac).voice_quality = 5) ∧
      (ps = [] → (analyze_realtime_data cs vs ps fc ac).body_language = 5)) := by
  obtain ⟨hc0, hb0⟩ := h0
  simp only [bucketAt] at hc0 hb0
  refine ⟨⟨rfl, rfl, rfl⟩, ⟨?_, ?_, ?_⟩, ?_, ?_, ?_⟩
  · simp [update_physical_analysis, bucketAt, hc0]
  · simp [update_physical_analysis, bucketAt, hb0]
  · simp [update_physical_analysis, bucketAt, hc0, hb0]
  · intro h
    subst h
    simp [analyze_realtime_data]
    norm_num [pyRound, pyRoundHalfEven, ratFloor, Int.fdiv]
  · intro h
    subst h
    simp [analyze_realtime_data]
    norm_num [pyRound, pyRoundHalfEven, ratFloor, Int.fdiv]
  · intro h
    subst h
    simp [analyze_realtime_data]
    norm_num [pyRound, pyRoundHalfEven, ratFloor, Int.fdiv]

/-- Witness for C10 at an audio-only sample on a fresh session and a
voice-only batch. -/
theorem C10_zero_init_and_batch_neutral_witness :
    ((bucketAt (update_physical_analysis none (some (some ⟨7⟩)) startDemo)).confidence = 0 ∧
      (bucketAt (update_physical_analysis none (some (some ⟨7⟩))
        startDemo)).body_language = 0 ∧
      (bucketAt (update_physical_analysis none (some (some ⟨7⟩))
        startDemo)).overall_physical_score =
        pyRound 2 ((bucketAt (update_physical_analysis none (some (some ⟨7⟩))
          startDemo)).voice_quality * Config.VOICE_WEIGHT)) ∧
    ((analyze_realtime_data [] [6] [] 0 1).confidence = 5 ∧
      (analyze_realtime_data [] [6] [] 0 1).body_language = 5) := by
  have h0 : (bucketAt startDemo).confidence = 0 ∧ (bucketAt startDemo).body_language = 0 :=
    ⟨rfl, rfl⟩
  have h := C10_zero_init_and_batch_neutral startDemo ⟨7⟩ [] [6] [] 0 1 h0
  exact ⟨h.2.1, h.2.2.1 rfl, h.2.2.2.2 rfl⟩

end AIInterview
